import Mathlib

/-!
# Tennis match logger: routing and middleware pipeline

A shallow embedding of `backend/main.go`: the placeholder handlers, the two
middleware functions `recoverPanic` and `logRequest`, and the handler built by
`routes()`.

Conventions of the embedding.

* The application value carries the logger pointer, which `main` sets and which is
  nil in a zero-valued `application`; a `Printf` on a nil logger panics.
* A handler is a function from the request and the response writer it is
  handed to a `Result`: the response writer as the call leaves it, the
  entries the call appended to the application logger (oldest first), and the
  panic value when the call unwinds instead of returning.  The logger writes
  to standard output and is never read back, so it is modelled as output only.
* The response writer follows `net/http`: the first `Write` without a previous
  `WriteHeader` sends status 200, a second `WriteHeader` is ignored, a handler
  that returns without writing anything produces status 200, and the headers of
  the response are those of the header map at the moment the status is sent.
* One logger entry is the text handed to the logger by one `Printf` call; the
  date and time that the logger puts in front (flags `Ldate|Ltime`) is wall-clock
  time and is not part of the entry.
* Strings are sequences of characters; where the library works on bytes
  (percent-encoding) a character stands for its UTF-8 bytes.
-/

namespace TennisLog

/-! ## Requests -/

/-- The fields of `net/url.URL` that `RequestURI` and the router read. -/
structure URL where
  Scheme : String
  Opaque : String
  Path : String
  RawPath : String
  ForceQuery : Bool
  RawQuery : String
  deriving DecidableEq, Repr

/-- The parts of `http.Request` the program reads. -/
structure Request where
  Method : String
  URL : TennisLog.URL
  Proto : String
  RemoteAddr : String
  deriving DecidableEq, Repr

/-! ## Percent-encoding of paths (`net/url`) -/

/-- The UTF-8 bytes of a character. -/
def utf8Bytes (c : Char) : List Nat :=
  let n := c.toNat
  if n < 0x80 then [n]
  else if n < 0x800 then [0xC0 + n / 64, 0x80 + n % 64]
  else if n < 0x10000 then [0xE0 + n / 4096, 0x80 + n / 64 % 64, 0x80 + n % 64]
  else [0xF0 + n / 262144, 0x80 + n / 4096 % 64, 0x80 + n / 64 % 64, 0x80 + n % 64]

/-- The bytes of a string. -/
def stringBytes (s : String) : List Nat :=
  s.data.flatMap utf8Bytes

/-- Whether the byte is an ASCII letter or digit. -/
def isAlnum (b : Nat) : Bool :=
  ('a'.toNat ≤ b && b ≤ 'z'.toNat) || ('A'.toNat ≤ b && b ≤ 'Z'.toNat)
    || ('0'.toNat ≤ b && b ≤ '9'.toNat)

/-- The function `shouldEscape(c, encodePath)`: letters, digits and `-_.~` are kept,
of the reserved characters `$&+,/:;=?@` only `?` is escaped, every other byte is
escaped. -/
def shouldEscape (b : Nat) : Bool :=
  if isAlnum b then false
  else if b ∈ "-_.~".data.map Char.toNat then false
  else if b ∈ "$&+,/:;=?@".data.map Char.toNat then b == '?'.toNat
  else true

/-- The hexadecimal digit of `upperhex`. -/
def upperhex (n : Nat) : Char :=
  "0123456789ABCDEF".data.getD n '0'

/-- The function `escape(s, encodePath)`: every byte that `shouldEscape` is written
as `%` and two upper-case hexadecimal digits. -/
def escape (s : String) : String :=
  String.mk ((stringBytes s).flatMap fun b =>
    if shouldEscape b then ['%', upperhex (b / 16), upperhex (b % 16)] else [Char.ofNat b])

/-- The function `ishex`. -/
def ishex (b : Nat) : Bool :=
  ('0'.toNat ≤ b && b ≤ '9'.toNat) || ('a'.toNat ≤ b && b ≤ 'f'.toNat)
    || ('A'.toNat ≤ b && b ≤ 'F'.toNat)

/-- The function `unhex`. -/
def unhex (b : Nat) : Nat :=
  if '0'.toNat ≤ b && b ≤ '9'.toNat then b - '0'.toNat
  else if 'a'.toNat ≤ b && b ≤ 'f'.toNat then b - 'a'.toNat + 10
  else if 'A'.toNat ≤ b && b ≤ 'F'.toNat then b - 'A'.toNat + 10
  else 0

/-- The function `unescape(s, encodePath)` on bytes: `%XX` becomes the byte `XX`, a
`%` not followed by two hexadecimal digits is an error, any other byte is kept. -/
def unescape : List Nat → Option (List Nat)
  | [] => some []
  | b :: rest =>
    if b = '%'.toNat then
      match rest with
      | h1 :: h2 :: rest2 =>
        if ishex h1 && ishex h2 then
          (unescape rest2).map fun bs => (unhex h1 * 16 + unhex h2) :: bs
        else none
      | _ => none
    else (unescape rest).map fun bs => b :: bs

/-- The function `validEncoded(s, encodePath)`: every byte is one of
`!$&'()*+,;=:@[]%` or a byte that `shouldEscape` keeps. -/
def validEncoded (bs : List Nat) : Bool :=
  bs.all fun b =>
    b ∈ "!$&()*+,;=:@[]%".data.map Char.toNat || b == 39 || !shouldEscape b

/-- The method `u.EscapedPath()`: `RawPath` when it is a valid encoding of `Path`,
otherwise the computed encoding of `Path` (`*` is left alone). -/
def URL.EscapedPath (u : URL) : String :=
  if u.RawPath ≠ "" ∧ validEncoded (stringBytes u.RawPath) = true
      ∧ unescape (stringBytes u.RawPath) = some (stringBytes u.Path) then u.RawPath
  else if u.Path = "*" then "*"
  else escape u.Path

/-- The method `u.RequestURI()`: the opaque part, or else the encoded path (`/` when
it is empty), followed by `?` and the raw query when the query is forced or
non-empty. -/
def URL.RequestURI (u : URL) : String :=
  let result :=
    if u.Opaque = "" then
      (if u.EscapedPath = "" then "/" else u.EscapedPath)
    else if "//".data.isPrefixOf u.Opaque.data then u.Scheme ++ ":" ++ u.Opaque
    else u.Opaque
  if u.ForceQuery = true ∨ u.RawQuery ≠ "" then result ++ "?" ++ u.RawQuery else result

/-! ## Response writer -/

/-- The state of an `http.ResponseWriter`: the header map the handler edits, whether
the status line has been sent, the status sent, the copy of the header map taken
when the status was sent, and the body written so far. -/
structure ResponseWriter where
  header : List (String × String)
  wroteHeader : Bool
  status : Nat
  sent : List (String × String)
  body : String
  deriving DecidableEq, Repr

/-- The response writer the server hands to the entry handler for a new request. -/
def ResponseWriter.fresh : ResponseWriter :=
  { header := [], wroteHeader := false, status := 0, sent := [], body := "" }

/-- The call `w.Header().Set(key, value)`: the value replaces any earlier one in the
header map. -/
def ResponseWriter.HeaderSet (w : ResponseWriter) (key value : String) : ResponseWriter :=
  { w with header := (key, value) :: w.header.filter (fun kv => kv.1 ≠ key) }

/-- The call `w.WriteHeader(code)`: only the first call has an effect; it sends the
status with a copy of the header map as it is then. -/
def ResponseWriter.WriteHeader (w : ResponseWriter) (code : Nat) : ResponseWriter :=
  if w.wroteHeader then w
  else { w with wroteHeader := true, status := code, sent := w.header }

/-- The call `w.Write(data)`: sends status 200 first when no status was sent yet. -/
def ResponseWriter.Write (w : ResponseWriter) (data : String) : ResponseWriter :=
  let w1 := w.WriteHeader 200
  { w1 with body := w1.body ++ data }

/-- The status the client receives: the one sent, or 200 when the handler returned
without sending any. -/
def ResponseWriter.statusCode (w : ResponseWriter) : Nat :=
  if w.wroteHeader then w.status else 200

/-- The value of a header in the response the client receives, among the headers the
handlers set: the headers sent with the status, or the header map when the handler
returned without sending any status. -/
def ResponseWriter.responseHeader (w : ResponseWriter) (key : String) : Option String :=
  ((if w.wroteHeader then w.sent else w.header).find? (fun kv => kv.1 = key)).map
    (fun kv => kv.2)

/-- The call `fmt.Fprintln(w, s)`: writes `s` followed by a newline. -/
def Fprintln (w : ResponseWriter) (s : String) : ResponseWriter :=
  w.Write (s ++ "\n")

/-- The call `http.Error(w, error, code)`. -/
def httpError (w : ResponseWriter) (error : String) (code : Nat) : ResponseWriter :=
  let w1 := w.HeaderSet "Content-Type" "text/plain; charset=utf-8"
  let w2 := w1.HeaderSet "X-Content-Type-Options" "nosniff"
  Fprintln (w2.WriteHeader code) error

/-! ## Formatting -/

/-- The expansion of a format string by `fmt.Sprintf` for string operands, for the
verbs the program uses: `%s` is replaced by the next operand (`%!s(MISSING)` when
none is left), `%%` is a percent sign, any other character is copied, and operands
left over at the end are reported as `%!(EXTRA ...)`. -/
def sprintfAux : List Char → List String → List Char
  | [], [] => []
  | [], a :: args =>
    "%!(EXTRA ".data ++ (String.intercalate ", " ((a :: args).map fun x => "string=" ++ x)).data
      ++ [')']
  | c :: fmt, args =>
    if c = '%' then
      match fmt, args with
      | 's' :: fmt1, a :: args1 => a.data ++ sprintfAux fmt1 args1
      | 's' :: fmt1, [] => "%!s(MISSING)".data ++ sprintfAux fmt1 []
      | '%' :: fmt1, args1 => '%' :: sprintfAux fmt1 args1
      | fmt1, args1 => c :: sprintfAux fmt1 args1
    else c :: sprintfAux fmt args

/-- The text `fmt.Sprintf(format, args...)` for string operands. -/
def Sprintf (format : String) (args : List String) : String :=
  String.mk (sprintfAux format.data args)

/-! ## Handlers -/

/-- What one call of a handler does: the response writer as the call leaves it, the
entries it appended to the logger, and the panic value when it panicked (a panic
value is never nil: the runtime turns `panic(nil)` into a `PanicNilError`). -/
structure Result where
  w : ResponseWriter
  logs : List String
  panicked : Option String
  deriving DecidableEq, Repr

/-- An `http.Handler`. -/
abbrev Handler := Request → ResponseWriter → Result

def healthCheck : Handler := fun _ w =>
  { w := Fprintln w "Tennis Match Logger API is running", logs := [], panicked := none }

def getMatches : Handler := fun _ w =>
  { w := Fprintln w "Get matches - to be implemented", logs := [], panicked := none }

def createMatch : Handler := fun _ w =>
  { w := Fprintln w "Create match - to be implemented", logs := [], panicked := none }

def getMatch : Handler := fun _ w =>
  { w := Fprintln w "Get match - to be implemented", logs := [], panicked := none }

def updateMatch : Handler := fun _ w =>
  { w := Fprintln w "Update match - to be implemented", logs := [], panicked := none }

def getPlayers : Handler := fun _ w =>
  { w := Fprintln w "Get players - to be implemented", logs := [], panicked := none }

def createPlayer : Handler := fun _ w =>
  { w := Fprintln w "Create player - to be implemented", logs := [], panicked := none }

/-! ## The application and its logger -/

/-- A `log.Logger` as `log.New(out, pre, flag)` builds it; the output is standard
output.  Neither field enters the text of an entry. -/
structure Logger where
  pre : String
  flag : Nat
  deriving DecidableEq, Repr

/-- The flag `log.Ldate`. -/
def Ldate : Nat := 1

/-- The flag `log.Ltime`. -/
def Ltime : Nat := 2

/-- The struct `application`: a pointer to the logger, which may be nil. -/
structure application where
  logger : Option Logger
  deriving DecidableEq, Repr

/-- The logger of `main`: `log.New(os.Stdout, "", log.Ldate|log.Ltime)`. -/
def main.logger : Logger := { pre := "", flag := Ldate ||| Ltime }

/-- The application value of `main`. -/
def main.app : application := { logger := some main.logger }

/-- The call `logger.Printf(format, args...)`: the entry handed to the logger, or the
run-time panic of a call on a nil logger. -/
def Printf (logger : Option Logger) (format : String) (args : List String) :
    Except String String :=
  match logger with
  | none => Except.error "runtime error: invalid memory address or nil pointer dereference"
  | some _ => Except.ok (Sprintf format args)

/-! ## Middleware -/

/-- The middleware `recoverPanic` (its receiver is not used): the deferred function
runs on every exit of `next.ServeHTTP`; when a panic is under way it stops it, sets
`Connection: close` and calls `http.Error(w, "Internal Server Error", 500)`. -/
def recoverPanic (next : Handler) : Handler := fun r w =>
  let res := next r w
  match res.panicked with
  | some _ =>
    { w := httpError (res.w.HeaderSet "Connection" "close") "Internal Server Error" 500,
      logs := res.logs, panicked := none }
  | none => res

/-- The middleware `logRequest`: one `Printf` to the logger of the application, then
`next.ServeHTTP`.  When the `Printf` panics, `next` is not reached. -/
def logRequest (app : application) (next : Handler) : Handler := fun r w =>
  match Printf app.logger "%s - %s %s %s"
      [r.RemoteAddr, r.Proto, r.Method, r.URL.RequestURI] with
  | Except.error v => { w := w, logs := [], panicked := some v }
  | Except.ok line =>
    let res := next r w
    { res with logs := line :: res.logs }

/-! ## Route table -/

/-- One segment of a route pattern: a literal, or a named parameter (`:id`). -/
inductive Segment where
  | lit (s : List Char)
  | param (name : List Char)
  deriving DecidableEq, Repr

/-- The segments of a path: the pieces between the `/` characters, in order. -/
def splitPath : List Char → List (List Char)
  | [] => [[]]
  | c :: cs =>
    if c = '/' then [] :: splitPath cs
    else
      match splitPath cs with
      | seg :: rest => (c :: seg) :: rest
      | [] => [[c]]

/-- The segments of a route pattern; a segment that starts with `:` is a named
parameter. -/
def parsePattern (pattern : String) : List Segment :=
  (splitPath pattern.data).map fun seg =>
    match seg with
    | ':' :: name => Segment.param name
    | _ => Segment.lit seg

/-- A literal segment matches itself; a named parameter matches any non-empty
segment. -/
def segMatch : Segment → List Char → Bool
  | Segment.lit s, seg => decide (s = seg)
  | Segment.param _, seg => !seg.isEmpty

/-- Positional matching of pattern segments against path segments. -/
def segsMatch : List Segment → List (List Char) → Bool
  | [], [] => true
  | p :: ps, s :: ss => segMatch p s && segsMatch ps ss
  | _, _ => false

/-- Whether the path matches the route pattern. -/
def patternMatches (pattern path : String) : Bool :=
  segsMatch (parsePattern pattern) (splitPath path.data)

/-- Whether the pattern has no named parameter. -/
def isLiteralPattern (pattern : String) : Bool :=
  (parsePattern pattern).all fun seg =>
    match seg with
    | Segment.lit _ => true
    | Segment.param _ => false

/-- A route entry: method, path pattern, handler. -/
structure Route where
  method : String
  pattern : String
  handler : Handler

/-- The route table of `httprouter.Router`, in registration order. -/
structure Router where
  routes : List Route

/-- The empty router of `httprouter.New()`. -/
def Router.New : Router := { routes := [] }

/-- The registration `router.HandlerFunc(method, path, handler)`. -/
def Router.HandlerFunc (rt : Router) (method pattern : String) (handler : Handler) : Router :=
  { routes := rt.routes ++ [{ method := method, pattern := pattern, handler := handler }] }

/-- The outcome of a route lookup. -/
inductive Resolved where
  | found (h : Handler)
  | NotFound
  | MethodNotAllowed

/-- Modelled from the spec: the route lookup of the `httprouter` package, whose source is
not part of the repository (section 4.1, `resolve(method, path)`).  Path segments
are matched positionally and a named parameter matches any non-empty segment; a
pattern made of literal segments wins over one with a named parameter; when no
pattern matches the path the result is `NotFound`, and when some pattern matches
the path but none does for the method the result is `MethodNotAllowed`. -/
def Router.resolve (rt : Router) (method path : String) : Resolved :=
  let candidates := rt.routes.filter fun e => decide (e.method = method) && patternMatches e.pattern path
  match candidates.find? (fun e => isLiteralPattern e.pattern) with
  | some e => Resolved.found e.handler
  | none =>
    match candidates with
    | e :: _ => Resolved.found e.handler
    | [] =>
      if rt.routes.any (fun e => patternMatches e.pattern path) then Resolved.MethodNotAllowed
      else Resolved.NotFound

/-- Modelled from the spec: the dispatch `router.ServeHTTP` of the `httprouter` package
(section 4.1): the resolved handler serves the request, `NotFound` becomes status
404 and `MethodNotAllowed` status 405. -/
def Router.ServeHTTP (rt : Router) : Handler := fun r w =>
  match rt.resolve r.Method r.URL.Path with
  | Resolved.found h => h r w
  | Resolved.NotFound => { w := w.WriteHeader 404, logs := [], panicked := none }
  | Resolved.MethodNotAllowed => { w := w.WriteHeader 405, logs := [], panicked := none }

/-! ## Middleware chain -/

/-- The ordered list of middleware constructors of `alice.Chain`. -/
structure Chain where
  constructors : List (Handler → Handler)

/-- The call `alice.New(constructors...)`. -/
def alice.New (constructors : List (Handler → Handler)) : Chain :=
  { constructors := constructors }

/-- Modelled from the spec: `Chain.Then` of the `alice` package, whose source is not
part of the repository (sections 4.2 and 9): the list of constructors is folded
around the final handler, the first constructor ending up outermost. -/
def Chain.Then (c : Chain) (h : Handler) : Handler :=
  c.constructors.foldr (fun constructor acc => constructor acc) h

/-! ## The handler of the server -/

/-- The route table registered by `routes()`. -/
def router : Router :=
  (((((((Router.New.HandlerFunc "GET" "/" healthCheck).HandlerFunc
    "GET" "/v1/health" healthCheck).HandlerFunc
    "GET" "/v1/matches" getMatches).HandlerFunc
    "POST" "/v1/matches" createMatch).HandlerFunc
    "GET" "/v1/matches/:id" getMatch).HandlerFunc
    "PUT" "/v1/matches/:id" updateMatch).HandlerFunc
    "GET" "/v1/players" getPlayers).HandlerFunc
    "POST" "/v1/players" createPlayer

/-- The chain `standard` of `routes()`. -/
def standard (app : application) : Chain := alice.New [recoverPanic, logRequest app]

/-- The handler returned by `routes()`. -/
def routes (app : application) : Handler := (standard app).Then router.ServeHTTP

/-! ## Serving a request, and handlers used as test doubles -/

/-- The status and body the client receives when the server passes the request to
the handler together with a new response writer. -/
def respond (h : Handler) (r : Request) : Nat × String :=
  ((h r ResponseWriter.fresh).w.statusCode, (h r ResponseWriter.fresh).w.body)

/-- The URL the server parses from a request line whose target is a plain path. -/
def pathURL (path : String) : URL :=
  { Scheme := "", Opaque := "", Path := path, RawPath := "", ForceQuery := false,
    RawQuery := "" }

/-- A request with the given method and path, as test requests are built. -/
def testRequest (method path : String) : Request :=
  { Method := method, URL := pathURL path, Proto := "HTTP/1.1",
    RemoteAddr := "127.0.0.1:4000" }

/-- An application whose logger was never set. -/
def nilLoggerApp : application := { logger := none }

/-- A handler that panics before it touches the response. -/
def panicNow : Handler := fun _ w =>
  { w := w, logs := [], panicked := some "boom" }

/-- A handler that writes one byte of body and then panics. -/
def panicAfterWrite : Handler := fun _ w =>
  { w := w.Write "x", logs := [], panicked := some "boom" }

/-! ## Lemmas on formatting, encoding and the middleware -/

theorem Sprintf_logLine (a p m u : String) :
    Sprintf "%s - %s %s %s" [a, p, m, u] = a ++ " - " ++ p ++ " " ++ m ++ " " ++ u := by
  apply String.ext
  simp [Sprintf, sprintfAux]

theorem logRequest_eq (l : Logger) (next : Handler) (r : Request) (w : ResponseWriter) :
    logRequest { logger := some l } next r w =
      { w := (next r w).w,
        logs := (r.RemoteAddr ++ " - " ++ r.Proto ++ " " ++ r.Method ++ " " ++ r.URL.RequestURI)
          :: (next r w).logs,
        panicked := (next r w).panicked } := by
  simp [logRequest, Printf, Sprintf_logLine]

theorem logRequest_nil (next : Handler) (r : Request) (w : ResponseWriter) :
    logRequest { logger := none } next r w =
      { w := w, logs := [],
        panicked := some "runtime error: invalid memory address or nil pointer dereference" } := by
  simp [logRequest, Printf]

theorem recoverPanic_logs (next : Handler) (r : Request) (w : ResponseWriter) :
    (recoverPanic next r w).logs = (next r w).logs := by
  unfold recoverPanic
  cases hp : (next r w).panicked <;> simp [hp]

theorem recoverPanic_panicked (next : Handler) (r : Request) (w : ResponseWriter) :
    (recoverPanic next r w).panicked = none := by
  unfold recoverPanic
  cases hp : (next r w).panicked <;> simp [hp]

theorem recoverPanic_eq_of_panic (next : Handler) (r : Request) (w : ResponseWriter) (v : String)
    (hp : (next r w).panicked = some v) :
    recoverPanic next r w =
      { w := httpError ((next r w).w.HeaderSet "Connection" "close") "Internal Server Error" 500,
        logs := (next r w).logs, panicked := none } := by
  simp [recoverPanic, hp]

theorem httpError_unsent (w : ResponseWriter) (hw : w.wroteHeader = false) :
    (httpError (w.HeaderSet "Connection" "close") "Internal Server Error" 500).responseHeader
        "Connection" = some "close"
    ∧ (httpError (w.HeaderSet "Connection" "close") "Internal Server Error" 500).statusCode = 500
    ∧ (httpError (w.HeaderSet "Connection" "close") "Internal Server Error" 500).body
        = w.body ++ "Internal Server Error\n" := by
  simp [httpError, Fprintln, ResponseWriter.Write, ResponseWriter.WriteHeader,
    ResponseWriter.HeaderSet, ResponseWriter.responseHeader, ResponseWriter.statusCode, hw,
    List.find?, List.filter]

theorem shouldEscape_ascii (b : Nat) (h : shouldEscape b = false) : b < 0x80 := by
  by_contra hb
  have hb2 : 128 ≤ b := by omega
  have h1 : isAlnum b = false := by
    simp only [isAlnum, Bool.or_eq_false_iff, Bool.and_eq_false_iff, decide_eq_false_iff_not]
    have : 'z'.toNat = 122 := by decide
    have : 'Z'.toNat = 90 := by decide
    have : '9'.toNat = 57 := by decide
    refine ⟨⟨Or.inr (by omega), Or.inr (by omega)⟩, Or.inr (by omega)⟩
  have h2 : b ∉ "-_.~".data.map Char.toNat := by
    intro hm
    have : ∀ x ∈ "-_.~".data.map Char.toNat, x < 128 := by decide
    exact absurd (this b hm) (by omega)
  have h3 : b ∉ "$&+,/:;=?@".data.map Char.toNat := by
    intro hm
    have : ∀ x ∈ "$&+,/:;=?@".data.map Char.toNat, x < 128 := by decide
    exact absurd (this b hm) (by omega)
  unfold shouldEscape at h
  rw [h1] at h
  simp only [Bool.false_eq_true, if_false, if_neg h2, if_neg h3] at h
  exact Bool.noConfusion h

theorem escape_safe (s : String) (hs : ∀ c ∈ s.data, shouldEscape c.toNat = false) :
    escape s = s := by
  apply String.ext
  have key : ∀ cs : List Char, (∀ c ∈ cs, shouldEscape c.toNat = false) →
      ((cs.flatMap utf8Bytes).flatMap fun b =>
        if shouldEscape b then ['%', upperhex (b / 16), upperhex (b % 16)] else [Char.ofNat b])
        = cs := by
    intro cs
    induction cs with
    | nil => intro _; rfl
    | cons c cs ih =>
      intro h
      have hc := h c (List.mem_cons_self _ _)
      have hlt := shouldEscape_ascii _ hc
      have hu : utf8Bytes c = [c.toNat] := by simp [utf8Bytes, hlt]
      simp only [List.flatMap_cons, hu, List.flatMap_append, List.flatMap_nil, List.append_nil]
      rw [ih (fun x hx => h x (List.mem_cons_of_mem _ hx))]
      simp [hc]
  exact key s.data hs

theorem escapedPath_safe (u : URL) (hraw : u.RawPath = "")
    (hs : ∀ c ∈ u.Path.data, shouldEscape c.toNat = false) : u.EscapedPath = u.Path := by
  unfold URL.EscapedPath
  simp only [hraw, ne_eq, not_true_eq_false, false_and, if_false]
  split
  · rename_i h; exact h.symm
  · exact escape_safe _ hs

theorem routes_eq (app : application) (r : Request) (w : ResponseWriter) :
    routes app r w = recoverPanic (logRequest app router.ServeHTTP) r w := rfl

/-! ## Lemmas on the route table -/

theorem routes_list : router.routes =
    [⟨"GET", "/", healthCheck⟩, ⟨"GET", "/v1/health", healthCheck⟩,
     ⟨"GET", "/v1/matches", getMatches⟩, ⟨"POST", "/v1/matches", createMatch⟩,
     ⟨"GET", "/v1/matches/:id", getMatch⟩, ⟨"PUT", "/v1/matches/:id", updateMatch⟩,
     ⟨"GET", "/v1/players", getPlayers⟩, ⟨"POST", "/v1/players", createPlayer⟩] := rfl

theorem splitPath_segment (s : List Char) (hs : '/' ∉ s) : splitPath s = [s] := by
  induction s with
  | nil => rfl
  | cons c cs ih =>
    have hc : c ≠ '/' := fun h => hs (by simp [h])
    have hcs : '/' ∉ cs := fun h => hs (List.mem_cons_of_mem _ h)
    simp [splitPath, hc, ih hcs]

theorem splitPath_matches_id (s : String) (hs : '/' ∉ s.data) :
    splitPath ("/v1/matches/" ++ s).data
      = [[], ['v', '1'], ['m', 'a', 't', 'c', 'h', 'e', 's'], s.data] := by
  have h : ("/v1/matches/" ++ s).data
      = '/' :: 'v' :: '1' :: '/' :: 'm' :: 'a' :: 't' :: 'c' :: 'h' :: 'e' :: 's' :: '/' :: s.data := by
    simp [String.data_append]
  rw [h]
  simp [splitPath, splitPath_segment s.data hs]

theorem patternMatches_id (s : String) (hne : s ≠ "") (hs : '/' ∉ s.data) :
    patternMatches "/v1/matches/:id" ("/v1/matches/" ++ s) = true
    ∧ patternMatches "/" ("/v1/matches/" ++ s) = false
    ∧ patternMatches "/v1/health" ("/v1/matches/" ++ s) = false
    ∧ patternMatches "/v1/matches" ("/v1/matches/" ++ s) = false
    ∧ patternMatches "/v1/players" ("/v1/matches/" ++ s) = false := by
  have hd : s.data ≠ [] := fun h => hne (String.ext h)
  have p1 : parsePattern "/v1/matches/:id" = [Segment.lit [], Segment.lit ['v', '1'],
      Segment.lit ['m', 'a', 't', 'c', 'h', 'e', 's'], Segment.param ['i', 'd']] := by decide
  have p2 : parsePattern "/" = [Segment.lit [], Segment.lit []] := by decide
  have p3 : parsePattern "/v1/health" = [Segment.lit [], Segment.lit ['v', '1'],
      Segment.lit ['h', 'e', 'a', 'l', 't', 'h']] := by decide
  have p4 : parsePattern "/v1/matches" = [Segment.lit [], Segment.lit ['v', '1'],
      Segment.lit ['m', 'a', 't', 'c', 'h', 'e', 's']] := by decide
  have p5 : parsePattern "/v1/players" = [Segment.lit [], Segment.lit ['v', '1'],
      Segment.lit ['p', 'l', 'a', 'y', 'e', 'r', 's']] := by decide
  unfold patternMatches
  rw [splitPath_matches_id s hs, p1, p2, p3, p4, p5]
  simp [segsMatch, segMatch, hd]

theorem resolve_id (s : String) (hne : s ≠ "") (hs : '/' ∉ s.data) :
    router.resolve "GET" ("/v1/matches/" ++ s) = Resolved.found getMatch
    ∧ router.resolve "PUT" ("/v1/matches/" ++ s) = Resolved.found updateMatch := by
  obtain ⟨h1, h2, h3, h4, h5⟩ := patternMatches_id s hne hs
  have l1 : isLiteralPattern "/v1/matches/:id" = false := by decide
  constructor <;>
    simp [Router.resolve, routes_list, List.filter, h1, h2, h3, h4, h5, l1]

theorem resolve_notFound (rt : Router) (m p : String)
    (h : ∀ e ∈ rt.routes, patternMatches e.pattern p = false) :
    rt.resolve m p = Resolved.NotFound := by
  have hc : rt.routes.filter
      (fun e => decide (e.method = m) && patternMatches e.pattern p) = [] := by
    rw [List.filter_eq_nil_iff]
    intro e he
    simp [h e he]
  have ha : rt.routes.any (fun e => patternMatches e.pattern p) = false := by
    rw [List.any_eq_false]
    intro e he
    simp [h e he]
  simp [Router.resolve, hc, ha]

theorem resolve_methodNotAllowed (rt : Router) (m p : String)
    (hp : ∃ e ∈ rt.routes, patternMatches e.pattern p = true)
    (hm : ∀ e ∈ rt.routes, patternMatches e.pattern p = true → e.method ≠ m) :
    rt.resolve m p = Resolved.MethodNotAllowed := by
  have hc : rt.routes.filter
      (fun e => decide (e.method = m) && patternMatches e.pattern p) = [] := by
    rw [List.filter_eq_nil_iff]
    intro e he
    by_cases hpm : patternMatches e.pattern p = true
    · simp [hm e he hpm]
    · simp [hpm]
  have ha : rt.routes.any (fun e => patternMatches e.pattern p) = true := by
    rw [List.any_eq_true]
    exact hp
  simp [Router.resolve, hc, ha]

theorem resolve_found_mem (rt : Router) (m p : String) (h : Handler)
    (hr : rt.resolve m p = Resolved.found h) : ∃ e ∈ rt.routes, e.handler = h := by
  unfold Router.resolve at hr
  simp only at hr
  split at hr
  · rename_i e he
    have hmem := List.mem_of_find?_eq_some he
    exact ⟨e, (List.mem_filter.mp hmem).1, by injection hr⟩
  · split at hr
    · rename_i e rest hc
      have hmem : e ∈ rt.routes.filter
          (fun e => decide (e.method = m) && patternMatches e.pattern p) := by
        rw [hc]; simp
      exact ⟨e, (List.mem_filter.mp hmem).1, by injection hr⟩
    · split at hr <;> cases hr

theorem router_quiet (r : Request) (w : ResponseWriter) :
    (router.ServeHTTP r w).logs = [] ∧ (router.ServeHTTP r w).panicked = none := by
  unfold Router.ServeHTTP
  split
  · rename_i h hr
    obtain ⟨e, he, rfl⟩ := resolve_found_mem _ _ _ _ hr
    simp [routes_list] at he
    rcases he with rfl | rfl | rfl | rfl | rfl | rfl | rfl | rfl <;> exact ⟨rfl, rfl⟩
  · exact ⟨rfl, rfl⟩
  · exact ⟨rfl, rfl⟩

theorem requestURI_of_path (u : URL) (ho : u.Opaque = "") :
    u.RequestURI = (if u.EscapedPath = "" then "/" else u.EscapedPath)
      ++ (if u.ForceQuery = true ∨ u.RawQuery ≠ "" then "?" ++ u.RawQuery else "") := by
  unfold URL.RequestURI
  by_cases hq : u.ForceQuery = true ∨ u.RawQuery ≠ ""
  · simp only [ho, if_true, hq, String.append_assoc]
  · simp only [ho, if_true, hq, if_false, String.append_empty]

theorem requestURI_contains_path (u : URL) (ho : u.Opaque = "") (hraw : u.RawPath = "")
    (hs : ∀ c ∈ u.Path.data, shouldEscape c.toNat = false) :
    u.Path.data <:+: u.RequestURI.data := by
  rw [requestURI_of_path u ho, escapedPath_safe u hraw hs]
  by_cases hp : u.Path = ""
  · have hd : u.Path.data = [] := by rw [hp]
    rw [hd]
    exact List.nil_infix
  · simp only [hp, if_false]
    rw [String.data_append]
    exact (List.prefix_append _ _).isInfix

theorem logLine_contains (r : Request) :
    r.Method.data <:+:
      (r.RemoteAddr ++ " - " ++ r.Proto ++ " " ++ r.Method ++ " " ++ r.URL.RequestURI).data
    ∧ r.URL.RequestURI.data <:+:
      (r.RemoteAddr ++ " - " ++ r.Proto ++ " " ++ r.Method ++ " " ++ r.URL.RequestURI).data
    ∧ (r.URL.Opaque = "" → r.URL.RawPath = "" →
        (∀ c ∈ r.URL.Path.data, shouldEscape c.toNat = false) →
        r.URL.Path.data <:+:
          (r.RemoteAddr ++ " - " ++ r.Proto ++ " " ++ r.Method ++ " " ++ r.URL.RequestURI).data) := by
  have huri : r.URL.RequestURI.data <:+:
      (r.RemoteAddr ++ " - " ++ r.Proto ++ " " ++ r.Method ++ " " ++ r.URL.RequestURI).data :=
    ⟨(r.RemoteAddr ++ " - " ++ r.Proto ++ " " ++ r.Method ++ " ").data, [],
      by simp [String.data_append]⟩
  refine ⟨?_, huri, fun ho hraw hs => ?_⟩
  · exact ⟨(r.RemoteAddr ++ " - " ++ r.Proto ++ " ").data, (" " ++ r.URL.RequestURI).data,
      by simp [String.data_append]⟩
  · exact List.IsInfix.trans (requestURI_contains_path r.URL ho hraw hs) huri

/-! ## The claims -/

/-- Claim C1: each of the eight registered (method, path) pairs, sent through the
handler returned by `routes()` with any logger, any other URL fields, protocol and
remote address, yields status 200 and the route's literal text followed by one
newline; `GET /` and `GET /v1/health` both yield the health text.  The pattern
`/v1/matches/:id` is requested with the identifier `42`. -/
theorem routes_registered_pairs (l : Logger) (u : URL) (proto addr : String) :
    respond (routes { logger := some l }) ⟨"GET", { u with Path := "/" }, proto, addr⟩
        = (200, "Tennis Match Logger API is running\n")
    ∧ respond (routes { logger := some l }) ⟨"GET", { u with Path := "/v1/health" }, proto, addr⟩
        = (200, "Tennis Match Logger API is running\n")
    ∧ respond (routes { logger := some l }) ⟨"GET", { u with Path := "/v1/matches" }, proto, addr⟩
        = (200, "Get matches - to be implemented\n")
    ∧ respond (routes { logger := some l }) ⟨"POST", { u with Path := "/v1/matches" }, proto, addr⟩
        = (200, "Create match - to be implemented\n")
    ∧ respond (routes { logger := some l })
          ⟨"GET", { u with Path := "/v1/matches/42" }, proto, addr⟩
        = (200, "Get match - to be implemented\n")
    ∧ respond (routes { logger := some l })
          ⟨"PUT", { u with Path := "/v1/matches/42" }, proto, addr⟩
        = (200, "Update match - to be implemented\n")
    ∧ respond (routes { logger := some l }) ⟨"GET", { u with Path := "/v1/players" }, proto, addr⟩
        = (200, "Get players - to be implemented\n")
    ∧ respond (routes { logger := some l }) ⟨"POST", { u with Path := "/v1/players" }, proto, addr⟩
        = (200, "Create player - to be implemented\n") :=
  ⟨rfl, rfl, rfl, rfl, rfl, rfl, rfl, rfl⟩

/-- Claim C2, as amended: when `next` panics, `recoverPanic next` returns normally,
keeping the log entries of `next`; when moreover `next` had not yet sent a status,
the response carries `Connection: close`, its status is 500 and its body is what
`next` left followed by `Internal Server Error` and a newline. -/
theorem recoverPanic_on_panic (next : Handler) (r : Request) (w : ResponseWriter) (v : String)
    (hp : (next r w).panicked = some v) :
    ((recoverPanic next r w).panicked = none
      ∧ (recoverPanic next r w).logs = (next r w).logs)
    ∧ ((next r w).w.wroteHeader = false →
        (recoverPanic next r w).w.responseHeader "Connection" = some "close"
        ∧ (recoverPanic next r w).w.statusCode = 500
        ∧ (recoverPanic next r w).w.body = (next r w).w.body ++ "Internal Server Error\n") := by
  rw [recoverPanic_eq_of_panic next r w v hp]
  exact ⟨⟨rfl, rfl⟩, fun hw => httpError_unsent _ hw⟩

/-- Witness of `recoverPanic_on_panic`: a handler that panics at once, on
`GET /v1/health`. -/
theorem recoverPanic_on_panic_witness :
    (panicNow (testRequest "GET" "/v1/health") ResponseWriter.fresh).panicked = some "boom"
    ∧ (panicNow (testRequest "GET" "/v1/health") ResponseWriter.fresh).w.wroteHeader = false
    ∧ (recoverPanic panicNow (testRequest "GET" "/v1/health") ResponseWriter.fresh).panicked = none
    ∧ (recoverPanic panicNow (testRequest "GET" "/v1/health")
          ResponseWriter.fresh).w.responseHeader "Connection" = some "close"
    ∧ (recoverPanic panicNow (testRequest "GET" "/v1/health") ResponseWriter.fresh).w.statusCode
        = 500
    ∧ (recoverPanic panicNow (testRequest "GET" "/v1/health") ResponseWriter.fresh).w.body
        = "Internal Server Error\n" :=
  have h := recoverPanic_on_panic panicNow (testRequest "GET" "/v1/health")
    ResponseWriter.fresh "boom" rfl
  ⟨rfl, rfl, h.1.1, (h.2 rfl).1, (h.2 rfl).2.1, (h.2 rfl).2.2⟩

/-- Claim C2 as stated fails: a handler that writes one byte and then panics is
answered with status 200, the body `x` followed by the error text, and no
`Connection` header, not with status 500, `Connection: close` and the error text
alone. -/
theorem recoverPanic_after_write_not_500 :
    (panicAfterWrite (testRequest "GET" "/v1/health") ResponseWriter.fresh).panicked
        = some "boom"
    ∧ respond (recoverPanic panicAfterWrite) (testRequest "GET" "/v1/health")
        = (200, "xInternal Server Error\n")
    ∧ (recoverPanic panicAfterWrite (testRequest "GET" "/v1/health")
          ResponseWriter.fresh).w.responseHeader "Connection" = none := by
  decide

/-- Claim C3: a request whose path matches none of the registered patterns is answered
with status 404, whatever its method. -/
theorem routes_unmatched_path_404 (l : Logger) (r : Request)
    (h : ∀ e ∈ router.routes, patternMatches e.pattern r.URL.Path = false) :
    (respond (routes { logger := some l }) r).1 = 404 := by
  have hr := resolve_notFound router r.Method r.URL.Path h
  simp [respond, routes_eq, recoverPanic, logRequest_eq, Router.ServeHTTP, hr]
  rfl

/-- Witness of `routes_unmatched_path_404`: `GET /v1/matches/7/sets`. -/
theorem routes_unmatched_path_404_witness :
    (∀ e ∈ router.routes,
        patternMatches e.pattern (testRequest "GET" "/v1/matches/7/sets").URL.Path = false)
    ∧ (respond (routes main.app) (testRequest "GET" "/v1/matches/7/sets")).1 = 404 :=
  ⟨by decide,
    routes_unmatched_path_404 main.logger (testRequest "GET" "/v1/matches/7/sets") (by decide)⟩

/-- Claim C4: a request whose path matches a registered pattern, but whose method is not
registered for any pattern the path matches, is answered with status 405. -/
theorem routes_wrong_method_405 (l : Logger) (r : Request)
    (hp : ∃ e ∈ router.routes, patternMatches e.pattern r.URL.Path = true)
    (hm : ∀ e ∈ router.routes, patternMatches e.pattern r.URL.Path = true → e.method ≠ r.Method) :
    (respond (routes { logger := some l }) r).1 = 405 := by
  have hr := resolve_methodNotAllowed router r.Method r.URL.Path hp hm
  simp [respond, routes_eq, recoverPanic, logRequest_eq, Router.ServeHTTP, hr]
  rfl

/-- Witness of `routes_wrong_method_405`: `POST /v1/matches/7`. -/
theorem routes_wrong_method_405_witness :
    (∃ e ∈ router.routes,
        patternMatches e.pattern (testRequest "POST" "/v1/matches/7").URL.Path = true)
    ∧ (∀ e ∈ router.routes,
        patternMatches e.pattern (testRequest "POST" "/v1/matches/7").URL.Path = true →
          e.method ≠ (testRequest "POST" "/v1/matches/7").Method)
    ∧ (respond (routes main.app) (testRequest "POST" "/v1/matches/7")).1 = 405 :=
  ⟨by decide, by decide,
    routes_wrong_method_405 main.logger (testRequest "POST" "/v1/matches/7")
      (by decide) (by decide)⟩

/-- Claim C5: for every non-empty segment `s` without `/`, `GET /v1/matches/s` is
dispatched to `getMatch` and `PUT /v1/matches/s` to `updateMatch`, and each is
answered with status 200 and the placeholder text of that handler, the same for
every `s`. -/
theorem routes_match_any_identifier (l : Logger) (s : String) (u : URL) (proto addr : String)
    (hne : s ≠ "") (hs : '/' ∉ s.data) :
    router.resolve "GET" ("/v1/matches/" ++ s) = Resolved.found getMatch
    ∧ router.resolve "PUT" ("/v1/matches/" ++ s) = Resolved.found updateMatch
    ∧ respond (routes { logger := some l })
          ⟨"GET", { u with Path := "/v1/matches/" ++ s }, proto, addr⟩
        = (200, "Get match - to be implemented\n")
    ∧ respond (routes { logger := some l })
          ⟨"PUT", { u with Path := "/v1/matches/" ++ s }, proto, addr⟩
        = (200, "Update match - to be implemented\n") := by
  obtain ⟨hg, hu⟩ := resolve_id s hne hs
  refine ⟨hg, hu, ?_, ?_⟩
  · simp [respond, routes_eq, recoverPanic, logRequest_eq, Router.ServeHTTP, hg]
    exact ⟨rfl, rfl⟩
  · simp [respond, routes_eq, recoverPanic, logRequest_eq, Router.ServeHTTP, hu]
    exact ⟨rfl, rfl⟩

/-- Witness of `routes_match_any_identifier`: the non-numeric identifier `final`. -/
theorem routes_match_any_identifier_witness :
    "final" ≠ "" ∧ '/' ∉ "final".data
    ∧ respond (routes main.app)
          ⟨"GET", { pathURL "" with Path := "/v1/matches/" ++ "final" }, "HTTP/1.1",
            "127.0.0.1:4000"⟩
        = (200, "Get match - to be implemented\n")
    ∧ respond (routes main.app)
          ⟨"PUT", { pathURL "" with Path := "/v1/matches/" ++ "final" }, "HTTP/1.1",
            "127.0.0.1:4000"⟩
        = (200, "Update match - to be implemented\n") :=
  have h := routes_match_any_identifier main.logger "final" (pathURL "") "HTTP/1.1"
    "127.0.0.1:4000" (by decide) (by decide)
  ⟨by decide, by decide, h.2.2.1, h.2.2.2⟩

/-- Claim C6, as amended: every request served by the handler of `routes()` appends
exactly one entry to the logger; the entry contains the method and the request URI
that `RequestURI` returns, and it contains the path itself when the URL is not
opaque, has no raw path and the path needs no percent-encoding.  The same holds
when the chain `standard` wraps any other handler, whether it returns or panics:
one entry is put in front of whatever that handler logs itself. -/
theorem routes_one_log_line (l : Logger) (r : Request) :
    (∃ line, (routes { logger := some l } r ResponseWriter.fresh).logs = [line]
      ∧ r.Method.data <:+: line.data ∧ r.URL.RequestURI.data <:+: line.data
      ∧ (r.URL.Opaque = "" → r.URL.RawPath = "" →
          (∀ c ∈ r.URL.Path.data, shouldEscape c.toNat = false) →
          r.URL.Path.data <:+: line.data))
    ∧ ∀ (h : Handler) (w : ResponseWriter),
        ∃ line, ((standard { logger := some l }).Then h r w).logs = line :: (h r w).logs
          ∧ r.Method.data <:+: line.data ∧ r.URL.RequestURI.data <:+: line.data
          ∧ (r.URL.Opaque = "" → r.URL.RawPath = "" →
              (∀ c ∈ r.URL.Path.data, shouldEscape c.toNat = false) →
              r.URL.Path.data <:+: line.data) := by
  have key : ∀ (h : Handler) (w : ResponseWriter),
      ((standard { logger := some l }).Then h r w).logs =
        (r.RemoteAddr ++ " - " ++ r.Proto ++ " " ++ r.Method ++ " " ++ r.URL.RequestURI)
          :: (h r w).logs := by
    intro h w
    show (recoverPanic (logRequest { logger := some l } h) r w).logs = _
    rw [recoverPanic_logs, logRequest_eq]
  have hc := logLine_contains r
  constructor
  · refine ⟨_, ?_, hc.1, hc.2.1, hc.2.2⟩
    show ((standard { logger := some l }).Then router.ServeHTTP r ResponseWriter.fresh).logs = _
    rw [key, (router_quiet r ResponseWriter.fresh).1]
  · intro h w
    exact ⟨_, key h w, hc.1, hc.2.1, hc.2.2⟩

/-- Witness of `routes_one_log_line`: `GET /v1/matches/42`, whose path needs no
encoding and is found in the entry. -/
theorem routes_one_log_line_witness :
    (testRequest "GET" "/v1/matches/42").URL.Opaque = ""
    ∧ (testRequest "GET" "/v1/matches/42").URL.RawPath = ""
    ∧ (∀ c ∈ (testRequest "GET" "/v1/matches/42").URL.Path.data, shouldEscape c.toNat = false)
    ∧ ∃ line, (routes main.app (testRequest "GET" "/v1/matches/42") ResponseWriter.fresh).logs
          = [line]
        ∧ (testRequest "GET" "/v1/matches/42").URL.Path.data <:+: line.data :=
  have h := (routes_one_log_line main.logger (testRequest "GET" "/v1/matches/42")).1
  ⟨rfl, rfl, by decide,
    h.elim fun line hl => ⟨line, hl.1, hl.2.2.2 rfl rfl (by decide)⟩⟩

/-- Claim C6 as stated fails: for `GET /v1/matches/a%20b`, whose path is
`/v1/matches/a b`, the single entry holds the encoded request URI and does not
contain the path. -/
theorem routes_log_line_without_path :
    (routes main.app (testRequest "GET" "/v1/matches/a b") ResponseWriter.fresh).logs
        = ["127.0.0.1:4000 - HTTP/1.1 GET /v1/matches/a%20b"]
    ∧ ¬ ((testRequest "GET" "/v1/matches/a b").URL.Path.data
          <:+: "127.0.0.1:4000 - HTTP/1.1 GET /v1/matches/a%20b".data) := by
  decide

/-- Claim C7, as amended: the entry `logRequest` hands to the logger is the remote
address, ` - `, the protocol, the method and the request URI, separated by single
spaces, where the request URI is what `RequestURI` returns: for a URL that is not
opaque, the percent-encoded path (`/` when it is empty) followed by `?` and the raw
query when the query is forced or non-empty; the encoded path is the path itself
when there is no raw path and the path needs no percent-encoding. -/
theorem logRequest_line_format (l : Logger) (next : Handler) (r : Request)
    (w : ResponseWriter) :
    (logRequest { logger := some l } next r w).logs =
      (r.RemoteAddr ++ " - " ++ r.Proto ++ " " ++ r.Method ++ " " ++ r.URL.RequestURI)
        :: (next r w).logs
    ∧ (r.URL.Opaque = "" →
        r.URL.RequestURI = (if r.URL.EscapedPath = "" then "/" else r.URL.EscapedPath)
          ++ (if r.URL.ForceQuery = true ∨ r.URL.RawQuery ≠ "" then "?" ++ r.URL.RawQuery
              else ""))
    ∧ (r.URL.RawPath = "" → (∀ c ∈ r.URL.Path.data, shouldEscape c.toNat = false) →
        r.URL.EscapedPath = r.URL.Path) := by
  refine ⟨by rw [logRequest_eq], requestURI_of_path r.URL, escapedPath_safe r.URL⟩

/-- Witness of `logRequest_line_format`: `GET /v1/players?page=2`. -/
theorem logRequest_line_format_witness :
    ({ pathURL "/v1/players" with RawQuery := "page=2" } : URL).Opaque = ""
    ∧ ({ pathURL "/v1/players" with RawQuery := "page=2" } : URL).RawPath = ""
    ∧ (∀ c ∈ ({ pathURL "/v1/players" with RawQuery := "page=2" } : URL).Path.data,
        shouldEscape c.toNat = false)
    ∧ (logRequest main.app getPlayers
          ⟨"GET", { pathURL "/v1/players" with RawQuery := "page=2" }, "HTTP/1.1",
            "127.0.0.1:4000"⟩ ResponseWriter.fresh).logs
        = ["127.0.0.1:4000 - HTTP/1.1 GET /v1/players?page=2"]
    ∧ ({ pathURL "/v1/players" with RawQuery := "page=2" } : URL).EscapedPath = "/v1/players" :=
  have h := logRequest_line_format main.logger getPlayers
    ⟨"GET", { pathURL "/v1/players" with RawQuery := "page=2" }, "HTTP/1.1", "127.0.0.1:4000"⟩
    ResponseWriter.fresh
  ⟨rfl, rfl, by decide, h.1.trans (by decide), h.2.2 rfl (by decide)⟩

/-- Claim C7 as stated fails: the request URI in the entry is not the path plus the
query string for `GET /v1/matches/a%20b` (path `/v1/matches/a b`, logged encoded)
nor for `GET /v1/health?` (empty query, logged with the question mark). -/
theorem logRequest_line_not_path_plus_query :
    (logRequest main.app getMatch (testRequest "GET" "/v1/matches/a b")
        ResponseWriter.fresh).logs
      = ["127.0.0.1:4000 - HTTP/1.1 GET /v1/matches/a%20b"]
    ∧ (logRequest main.app getMatch (testRequest "GET" "/v1/matches/a b")
        ResponseWriter.fresh).logs
      ≠ ["127.0.0.1:4000 - HTTP/1.1 GET /v1/matches/a b"]
    ∧ (logRequest main.app healthCheck
        ⟨"GET", { pathURL "/v1/health" with ForceQuery := true }, "HTTP/1.1", "127.0.0.1:4000"⟩
        ResponseWriter.fresh).logs
      = ["127.0.0.1:4000 - HTTP/1.1 GET /v1/health?"]
    ∧ (logRequest main.app healthCheck
        ⟨"GET", { pathURL "/v1/health" with ForceQuery := true }, "HTTP/1.1", "127.0.0.1:4000"⟩
        ResponseWriter.fresh).logs
      ≠ ["127.0.0.1:4000 - HTTP/1.1 GET /v1/health"] := by
  decide

/-- Claim C8: for every application value, the handler of `routes()` is
`recoverPanic (logRequest router)` and the chain `standard` puts `recoverPanic`
outermost and `logRequest` next around any handler.  No panic leaves the composed
handler; when nothing inside panics the result is that of `logRequest` around the
handler; a panic raised inside `logRequest` (nil logger) and a panic raised by the
wrapped handler before it sent a status are both answered with status 500 and
`Connection: close`. -/
theorem routes_chain_order :
    (∀ (app : application) (h : Handler),
        (standard app).Then h = recoverPanic (logRequest app h))
    ∧ (∀ app : application, routes app = recoverPanic (logRequest app router.ServeHTTP))
    ∧ (∀ (app : application) (h : Handler) (r : Request) (w : ResponseWriter),
        ((standard app).Then h r w).panicked = none)
    ∧ (∀ (app : application) (h : Handler) (r : Request) (w : ResponseWriter),
        (logRequest app h r w).panicked = none →
          (standard app).Then h r w = logRequest app h r w)
    ∧ (∀ (app : application) (r : Request), app.logger = none →
        respond (routes app) r = (500, "Internal Server Error\n")
        ∧ (routes app r ResponseWriter.fresh).w.responseHeader "Connection" = some "close"
        ∧ (routes app r ResponseWriter.fresh).panicked = none)
    ∧ (∀ (l : Logger) (h : Handler) (r : Request) (w : ResponseWriter) (v : String),
        (h r w).panicked = some v → (h r w).w.wroteHeader = false →
          ((standard { logger := some l }).Then h r w).w.statusCode = 500
          ∧ ((standard { logger := some l }).Then h r w).w.responseHeader "Connection"
              = some "close"
          ∧ ((standard { logger := some l }).Then h r w).panicked = none) := by
  refine ⟨fun _ _ => rfl, fun _ => rfl, fun app h r w => ?_, fun app h r w hp => ?_,
    fun app r hl => ?_, fun l h r w v hp hw => ?_⟩
  · exact recoverPanic_panicked _ r w
  · show recoverPanic (logRequest app h) r w = _
    simp [recoverPanic, hp]
  · obtain ⟨lg⟩ := app
    simp only at hl
    subst hl
    have hn := logRequest_nil router.ServeHTTP r ResponseWriter.fresh
    have he := recoverPanic_eq_of_panic (logRequest { logger := none } router.ServeHTTP) r
      ResponseWriter.fresh _ (by rw [hn])
    have hu := httpError_unsent ResponseWriter.fresh rfl
    rw [hn] at he
    have hr : routes { logger := none } r ResponseWriter.fresh = _ := he
    refine ⟨?_, ?_, ?_⟩
    · unfold respond
      rw [hr]
      exact Prod.ext hu.2.1 hu.2.2
    · rw [hr]
      exact hu.1
    · rw [hr]
  · have hp2 : (logRequest { logger := some l } h r w).panicked = some v := by
      rw [logRequest_eq]; exact hp
    have he := recoverPanic_eq_of_panic (logRequest { logger := some l } h) r w v hp2
    have hu := httpError_unsent (logRequest { logger := some l } h r w).w
      (by rw [logRequest_eq]; exact hw)
    have hst : (standard { logger := some l }).Then h r w
        = recoverPanic (logRequest { logger := some l } h) r w := rfl
    rw [hst, he]
    exact ⟨hu.2.1, hu.1, rfl⟩

/-- Witness of `routes_chain_order`: the application without a logger serving
`GET /v1/health`, and a handler that panics at once under the logger of `main`. -/
theorem routes_chain_order_witness :
    nilLoggerApp.logger = none
    ∧ respond (routes nilLoggerApp) (testRequest "GET" "/v1/health")
        = (500, "Internal Server Error\n")
    ∧ (panicNow (testRequest "GET" "/v1/health") ResponseWriter.fresh).panicked = some "boom"
    ∧ ((standard main.app).Then panicNow (testRequest "GET" "/v1/health")
        ResponseWriter.fresh).w.statusCode = 500 :=
  ⟨rfl, (routes_chain_order.2.2.2.2.1 nilLoggerApp (testRequest "GET" "/v1/health") rfl).1,
    rfl,
    (routes_chain_order.2.2.2.2.2 main.logger panicNow (testRequest "GET" "/v1/health")
      ResponseWriter.fresh "boom" rfl rfl).1⟩

/-- Claim C9: the response writer and the outcome that `logRequest next` produces are
those of `next` alone, and `next` runs once: its own log entries follow the single
entry `logRequest` adds. -/
theorem logRequest_response_unchanged (l : Logger) (next : Handler) (r : Request)
    (w : ResponseWriter) :
    (logRequest { logger := some l } next r w).w = (next r w).w
    ∧ (logRequest { logger := some l } next r w).panicked = (next r w).panicked
    ∧ ∃ line, (logRequest { logger := some l } next r w).logs = line :: (next r w).logs := by
  rw [logRequest_eq]
  exact ⟨rfl, rfl, _, rfl⟩

/-- Claim C10: when `next` returns normally, `recoverPanic next` does exactly what
`next` does: same status, headers, body and log entries. -/
theorem recoverPanic_noop_on_return (next : Handler) (r : Request) (w : ResponseWriter)
    (h : (next r w).panicked = none) :
    recoverPanic next r w = next r w := by
  simp [recoverPanic, h]

/-- Witness of `recoverPanic_noop_on_return`: `getMatches` on `GET /v1/matches`. -/
theorem recoverPanic_noop_on_return_witness :
    (getMatches (testRequest "GET" "/v1/matches") ResponseWriter.fresh).panicked = none
    ∧ recoverPanic getMatches (testRequest "GET" "/v1/matches") ResponseWriter.fresh
        = getMatches (testRequest "GET" "/v1/matches") ResponseWriter.fresh :=
  ⟨rfl, recoverPanic_noop_on_return getMatches (testRequest "GET" "/v1/matches")
    ResponseWriter.fresh rfl⟩

end TennisLog
